import Mathlib

/-!
Verification development for the buddyai repository: a Flask "agent" HTTP
server (`agent/agent_server.py`) exposing OS-automation commands through a
dynamically built command registry, plugin command modules under
`agent/modules/`, and a separate `controller.py` client.

The Python code is shallowly embedded: pure control flow is translated
directly; OS / library effects (file system, subprocess, clipboard, HTTP,
wall clock) are supplied as explicit oracle inputs (`Except`-valued results
of the corresponding calls, boolean answers of `os.path` queries, ...), so
every embedded function is executable and total.
-/

/-- A single quote character (ASCII 39), used to splice the quote marks that
the Python f-string messages put around interpolated values. -/
def sglq : String := String.singleton (Char.ofNat 39)

/-- Wraps a string in single quotes, as the Python messages do with
interpolated values. -/
def q (s : String) : String := sglq ++ s ++ sglq

/-- JSON values, the data interchanged by the Flask endpoints (`jsonify`,
`request.get_json`) and returned by command handlers.  Numbers are modelled
as integers; float-valued fields produced by OS queries are supplied as
abstract oracle `Json` values by the callers. -/
inductive Json where
  | null : Json
  | bool (b : Bool) : Json
  | num (n : Int) : Json
  | str (s : String) : Json
  | arr (elems : List Json) : Json
  | obj (fields : List (String × Json)) : Json
deriving Repr, Inhabited

/-- Structural equality test on JSON values. -/
def Json.beq : Json → Json → Bool
  | .null, .null => true
  | .bool a, .bool b => a == b
  | .num a, .num b => a == b
  | .str a, .str b => a == b
  | .arr a, .arr b => beqList a b
  | .obj a, .obj b => beqFields a b
  | _, _ => false
where
  beqList : List Json → List Json → Bool
    | [], [] => true
    | x :: xs, y :: ys => Json.beq x y && beqList xs ys
    | _, _ => false
  beqFields : List (String × Json) → List (String × Json) → Bool
    | [], [] => true
    | (k, v) :: xs, (l, w) :: ys => k == l && Json.beq v w && beqFields xs ys
    | _, _ => false

/-- Lookup of a key in an association list, the semantics of reading a
Python `dict` (keys are unique in any dict the code builds, so first match
is the match). -/
def dlookup {α β : Type} [DecidableEq α] : List (α × β) → α → Option β
  | [], _ => none
  | (a, b) :: rest, k => if a = k then some b else dlookup rest k

/-- `d[k] = v` on a Python (insertion-ordered) `dict`: replace the value at
an existing key in place, otherwise append the new binding at the end. -/
def dinsert {α β : Type} [DecidableEq α] : List (α × β) → α → β → List (α × β)
  | [], k, v => [(k, v)]
  | (a, b) :: rest, k, v => if a = k then (k, v) :: rest else (a, b) :: dinsert rest k v

/-- `del d[k]` on a Python `dict`. -/
def ddelete {α β : Type} [DecidableEq α] : List (α × β) → α → List (α × β)
  | [], _ => []
  | (a, b) :: rest, k => if a = k then rest else (a, b) :: ddelete rest k

/-- Reading a key of a JSON object (`data[k]` / `data.get(k)`);
`none` on non-objects and absent keys. -/
def Json.lookup : Json → String → Option Json
  | .obj fields, k => dlookup fields k
  | _, _ => none

/-! ## The agent server: registry and dispatch (`agent/agent_server.py`) -/

/-- Keyword arguments passed to a command handler: the `params` JSON object
of the request body, unpacked with `**params`. -/
def Kwargs : Type := List (String × Json)

/-- Outcome of calling a Python command handler with keyword arguments:
a normal return value, a raised `TypeError` (e.g. a parameter mismatch with
the signature), or any other raised exception. -/
inductive CallOutcome where
  | ok (v : Json) : CallOutcome
  | raiseTypeError (msg : String) : CallOutcome
  | raiseOther (msg : String) : CallOutcome

/-- A registered command handler, as the dispatcher sees it: a function from
keyword arguments to a call outcome. -/
def Handler : Type := Kwargs → CallOutcome

/-- The `COMMAND_REGISTRY` dict: command name to handler. -/
def Registry : Type := List (String × Handler)

/-- An incoming HTTP request to `/execute`, as distinguished by the code
of the endpoint:
* `notJson`: `request.is_json` is false (no JSON content type);
* `invalidJson details`: `request.is_json` is true but `request.get_json()`
  (or the subsequent processing of `data`) raised, caught by the outer
  `except Exception` with message `details`;
* `jsonBody data`: a successfully parsed JSON object body. -/
inductive Request where
  | notJson : Request
  | invalidJson (details : String) : Request
  | jsonBody (data : List (String × Json)) : Request

/-- An HTTP response: status code and JSON body. -/
structure Resp where
  code : Nat
  body : Json
deriving Inhabited

/-- Result of one call of the `execute` view: the registry afterwards (the
view only reads `COMMAND_REGISTRY`, so it is passed through unchanged by
construction, mirroring the absence of any assignment to it), the HTTP
response, and a trace of the handler invocation that was made, if any:
the command name dispatched on and the keyword arguments passed. -/
structure ExecOut where
  reg : Registry
  resp : Resp
  called : Option (String × Kwargs)

/-- The CPython message for `f(**x)` when `x` is not a mapping (modelled
constant; the exact text is irrelevant to the claims). -/
def starStarMsg : String := "argument after ** must be a mapping"

/-- Registry lookup keyed by the JSON value found at `command_name`:
the registry keys are strings, so only a JSON string can match
(`command_name in COMMAND_REGISTRY`). -/
def registryLookup (reg : Registry) : Json → Option Handler
  | .str s => dlookup reg s
  | _ => none

/-- The `POST /execute` view function of `agent/agent_server.py`. -/
def execute (reg : Registry) (req : Request) : ExecOut :=
  match req with
  | .notJson =>
      ⟨reg, ⟨400, .obj [("error", .str "Request must be JSON")]⟩, none⟩
  | .invalidJson details =>
      ⟨reg, ⟨400, .obj [("error", .str "Invalid JSON format"), ("details", .str details)]⟩, none⟩
  | .jsonBody data =>
      match dlookup data "command_name" with
      | none =>
          ⟨reg, ⟨400, .obj [("error", .str ("Missing " ++ q "command_name" ++ " in JSON payload"))]⟩, none⟩
      | some commandName =>
          let params : Json := (dlookup data "params").getD (.obj [])
          match registryLookup reg commandName with
          | none => ⟨reg, ⟨404, .obj [("error", .str "unfound function")]⟩, none⟩
          | some handler =>
              let nameStr : String := match commandName with | .str s => s | _ => ""
              match params with
              | .obj kwargs =>
                  match handler kwargs with
                  | .ok result => ⟨reg, ⟨200, result⟩, some (nameStr, kwargs)⟩
                  | .raiseTypeError e =>
                      ⟨reg, ⟨400, .obj [("status", .str "error"),
                        ("message", .str ("Parameter mismatch for command " ++ q nameStr ++ ": " ++ e))]⟩,
                        some (nameStr, kwargs)⟩
                  | .raiseOther e =>
                      ⟨reg, ⟨500, .obj [("status", .str "error"),
                        ("message", .str ("Error executing command " ++ q nameStr ++ ": " ++ e))]⟩,
                        some (nameStr, kwargs)⟩
              | _ =>
                  -- `**params` with a non-mapping raises TypeError before the handler runs
                  ⟨reg, ⟨400, .obj [("status", .str "error"),
                    ("message", .str ("Parameter mismatch for command " ++ q nameStr ++ ": " ++ starStarMsg))]⟩,
                    none⟩

/-! ## Schema introspection (`GET /commands_schema`) -/

/-- A parameter type annotation as `inspect` reports it: either a type
with a `__name__` (all annotations in this repository are such) or one
without, rendered by `str(annotation)`. -/
inductive Annot where
  | named (nm : String) : Annot
  | other (reprStr : String) : Annot
deriving Repr, DecidableEq

/-- One entry of `inspect.signature(f).parameters`: the parameter name,
its annotation (`none` models `inspect.Parameter.empty`), and its default
value (`none` models `inspect.Parameter.empty`), the default rendered as
the JSON value `jsonify` serialises it to. -/
structure PInfo where
  name : String
  annot : Option Annot
  default : Option Json
deriving Repr

/-- What `get_commands_schema` introspects from one registered command:
its registry name, the handler docstring as cleaned by `inspect.getdoc`
(`none` when the handler has no docstring), and its signature parameters
in order. -/
structure Sig where
  name : String
  doc : Option String
  params : List PInfo
deriving Repr

/-- The `"type"` string of one parameter: the default `"string"` when the
parameter is unannotated, the `__name__` of the annotation when it has one, its
`str(...)` rendering otherwise. -/
def paramTypeName : Option Annot → String
  | none => "string"
  | some (.named nm) => nm
  | some (.other reprStr) => reprStr

/-- The `param_info` dict built for one parameter: keys `type`, `optional`,
`description` in insertion order (`type` is updated in place when an
annotation exists), plus `default` appended exactly when the parameter has
a default. -/
def paramInfoJson (p : PInfo) : Json :=
  .obj ([("type", .str (paramTypeName p.annot)),
         ("optional", .bool p.default.isSome),
         ("description", .str "")] ++
        (match p.default with
         | some d => [("default", d)]
         | none => []))

/-- The description of a command: the first paragraph of the cleaned
docstring, or the fallback text when there is none. -/
def descriptionOf : Option String → String
  | none => "No description available."
  | some d => (d.splitOn "\n\n").headD d

/-- One entry of the `commands` list of the schema response. -/
def commandEntry (s : Sig) : Json :=
  .obj [("name", .str s.name),
        ("description", .str (descriptionOf s.doc)),
        ("params_schema_for_prompt", .obj (s.params.map (fun p => (p.name, paramInfoJson p))))]

/-- The `GET /commands_schema` view function of `agent/agent_server.py`,
as a function of the introspection data of the registered commands. -/
def get_commands_schema (sigs : List Sig) : Json :=
  .obj [("status", .str "success"), ("commands", .arr (sigs.map commandEntry))]

/-- The name and signature parameters of every command registered by the
six modules of the repository (the docstrings, irrelevant to every claim here,
are abstracted as `docs`): `application_control.py`, `basic_ops.py`,
`file_system_ops.py`, `productivity_ops.py`, `system_info_control.py`,
`web_operations.py`, with the `COMMANDS` dict of each module in source order. -/
def realSigs (docs : Nat → Option String) : List Sig :=
  [⟨"app_open", docs 0, [⟨"app_name_or_path", some (.named "str"), none⟩]⟩,
   ⟨"app_close", docs 1, [⟨"app_name", some (.named "str"), none⟩]⟩,
   ⟨"tell_time", docs 2, []⟩,
   ⟨"greet", docs 3, [⟨"name", none, some (.str "Guest")⟩]⟩,
   ⟨"fs_create_file", docs 4,
     [⟨"path", some (.named "str"), none⟩, ⟨"content", some (.named "str"), some (.str "")⟩]⟩,
   ⟨"fs_read_file", docs 5, [⟨"path", some (.named "str"), none⟩]⟩,
   ⟨"fs_delete", docs 6, [⟨"path", some (.named "str"), none⟩]⟩,
   ⟨"fs_move", docs 7,
     [⟨"source_path", some (.named "str"), none⟩, ⟨"destination_path", some (.named "str"), none⟩]⟩,
   ⟨"fs_search_files", docs 8,
     [⟨"directory", some (.named "str"), none⟩,
      ⟨"file_pattern", some (.named "str"), none⟩,
      ⟨"content_pattern", some (.named "str"), some (.str "")⟩,
      ⟨"recursive", some (.named "bool"), some (.bool true)⟩]⟩,
   ⟨"prod_set_reminder", docs 9,
     [⟨"time_str", some (.named "str"), none⟩, ⟨"message", some (.named "str"), none⟩]⟩,
   ⟨"prod_list_reminders", docs 10, []⟩,
   ⟨"prod_cancel_reminder", docs 11, [⟨"reminder_id", some (.named "int"), none⟩]⟩,
   ⟨"prod_get_clipboard", docs 12, []⟩,
   ⟨"prod_set_clipboard", docs 13, [⟨"text", some (.named "str"), none⟩]⟩,
   ⟨"sys_get_load", docs 14, []⟩,
   ⟨"sys_get_disk", docs 15, [⟨"path", some (.named "str"), some (.str "/")⟩]⟩,
   ⟨"sys_set_volume", docs 16, [⟨"level", some (.named "int"), none⟩]⟩,
   ⟨"sys_take_screenshot", docs 17,
     [⟨"output_path", some (.named "str"), some (.str "screenshot.png")⟩]⟩,
   ⟨"web_open_url", docs 18, [⟨"url", some (.named "str"), none⟩]⟩,
   ⟨"web_search", docs 19,
     [⟨"query", some (.named "str"), none⟩, ⟨"engine", some (.named "str"), some (.str "google")⟩]⟩]

/-- The expected per-command facts claim C3 asserts, as data independent of
the docstrings: command name and signature parameters. -/
def realParamSigs : List (String × List PInfo) :=
  (realSigs (fun _ => none)).map (fun s => (s.name, s.params))

/-- Does this schema entry carry the given command name? -/
def entryHasName (n : String) (e : Json) : Bool :=
  match e.lookup "name" with
  | some (.str s) => s == n
  | _ => false

/-- Checks one parameter of a schema entry against the introspected
parameter data: the `optional` flag is true exactly when a default exists,
the `default` key is present exactly when a default exists and equals it,
and the `type` is the name of the annot with `"string"` fallback. -/
def checkParam (fields : List (String × Json)) (p : PInfo) : Bool :=
  (match dlookup fields "optional" with
   | some (.bool b) => b == p.default.isSome
   | _ => false) &&
  (match p.default, dlookup fields "default" with
   | some d, some d2 => Json.beq d2 d
   | none, none => true
   | _, _ => false) &&
  (match dlookup fields "type" with
   | some (.str t) =>
       (match p.annot with
        | some (.named nm) => t == nm
        | none => t == "string"
        | some (.other reprStr) => t == reprStr)
   | _ => false)

/-- Checks the `params_schema_for_prompt` object of a schema entry against
the signature: the keys are exactly the parameter names of the signature (in
signature order), each passing `checkParam`. -/
def checkParamsSchema (pj : Json) (ps : List PInfo) : Bool :=
  match pj with
  | .obj fields =>
      (fields.map Prod.fst == ps.map PInfo.name) &&
      ps.all (fun p =>
        match dlookup fields p.name with
        | some (.obj pf) => checkParam pf p
        | _ => false)
  | _ => false

/-- Checks the whole schema response against the signatures of the registry:
for every registered command there is exactly one entry with its name, and
the parameter schema of that entry passes `checkParamsSchema`. -/
def checkSchemaAgainst (schema : Json) (sigs : List (String × List PInfo)) : Bool :=
  match schema.lookup "commands" with
  | some (.arr entries) =>
      sigs.all (fun s =>
        match entries.filter (entryHasName s.1) with
        | [e] =>
            (match e.lookup "params_schema_for_prompt" with
             | some pj => checkParamsSchema pj s.2
             | none => false)
        | _ => false)
  | _ => false

/-! ## Module discovery and registry construction (`load_modules`) -/

/-- A successfully imported module, as `load_modules` inspects it: either it
has a dict-valued `COMMANDS` attribute (its items in dict order), or it does
not (no `COMMANDS`, or a non-dict one). -/
inductive PyModule (H : Type) where
  | withCommands (cmds : List (String × H)) : PyModule H
  | noCommands : PyModule H

/-- Outcome of `importlib.import_module` plus the processing of the module:
an imported module, an `ImportError`, or any other exception while
processing it (the two `except` arms of `load_modules`). -/
inductive ImportOutcome (H : Type) where
  | imported (m : PyModule H) : ImportOutcome H
  | importError : ImportOutcome H
  | otherError : ImportOutcome H

/-- The filename filter of `load_modules`: consider only `.py` files and
ignore `__init__.py`. -/
def shouldLoad (filename : String) : Bool :=
  filename.endsWith ".py" && filename != "__init__.py"

/-- The full module import name built from a filename:
`"modules." + filename[:-3]`. -/
def moduleImportName (filename : String) : String :=
  "modules." ++ filename.dropRight 3

/-- Merging the `COMMANDS` items of one module into the registry, one
`COMMAND_REGISTRY[command_name] = command_function` at a time. -/
def mergeCommands {H : Type} (reg : List (String × H)) (cmds : List (String × H)) :
    List (String × H) :=
  cmds.foldl (fun r p => dinsert r p.1 p.2) reg

/-- Processing one discovered module inside the `try`: merge its `COMMANDS`
if it has a dict-valued one, contribute nothing otherwise; either `except`
arm only prints, leaving the registry untouched. -/
def processModule {H : Type} (reg : List (String × H)) : ImportOutcome H → List (String × H)
  | .imported (.withCommands cmds) => mergeCommands reg cmds
  | .imported .noCommands => reg
  | .importError => reg
  | .otherError => reg

/-- The `load_modules` function of `agent/agent_server.py`, over the
directory listing paired with the import outcome of each file.  Returns the
final registry and the list of module import names that were attempted. -/
def load_modules {H : Type} :
    List (String × ImportOutcome H) → List (String × H) →
    List (String × H) × List String
  | [], reg => (reg, [])
  | (filename, outcome) :: rest, reg =>
      if shouldLoad filename then
        let res := load_modules rest (processModule reg outcome)
        (res.1, moduleImportName filename :: res.2)
      else
        load_modules rest reg

/-- The registry assignments one discovered module contributes: its
`COMMANDS` items when it imported and has a dict-valued `COMMANDS`,
nothing otherwise. -/
def moduleAssignments {H : Type} : ImportOutcome H → List (String × H)
  | .imported (.withCommands cmds) => cmds
  | .imported .noCommands => []
  | .importError => []
  | .otherError => []

/-- All `(name, handler)` assignments performed by a run of `load_modules`,
in execution order: the concatenated `COMMANDS` items of the considered,
successfully imported modules having a dict-valued `COMMANDS`. -/
def allAssignments {H : Type} : List (String × ImportOutcome H) → List (String × H)
  | [] => []
  | (filename, outcome) :: rest =>
      (if shouldLoad filename then moduleAssignments outcome else []) ++ allAssignments rest

/-! ## Routes registered on the Flask app -/

/-- A route registered with `@app.route`: URL rule and HTTP methods
(the Flask default for a bare `@app.route` is `GET`). -/
structure Route where
  path : String
  methods : List String
deriving Repr, DecidableEq

/-- The routes `agent/agent_server.py` registers, in source order: the
root hello-world route, the schema route, and the execute route. -/
def appRoutes : List Route :=
  [⟨"/", ["GET"]⟩, ⟨"/commands_schema", ["GET"]⟩, ⟨"/execute", ["POST"]⟩]

/-- The body returned by the `hello_world` view bound to `/`. -/
def helloWorldBody : String := "Hello World"

/-! ## The controller: `send_command_to_agent` (`controller.py`) -/

/-- The agent execution endpoint URL: `f"{AGENT_URL}/execute"`. -/
def commandsExecutionEndpoint (agentUrl : String) : String := agentUrl ++ "/execute"

/-- An outgoing HTTP request as `requests.post(url, json=body)` issues it. -/
structure HttpRequest where
  url : String
  method : String
  jsonBody : Json
deriving Repr

/-- The request `send_command_to_agent` sends for a given command JSON. -/
def sentRequest (agentUrl : String) (commandJson : Json) : HttpRequest :=
  ⟨commandsExecutionEndpoint agentUrl, "POST", commandJson⟩

/-- Outcome of the `requests.post` call plus `raise_for_status`:
* `timeout`: `requests.exceptions.Timeout` raised;
* `connectionError`: `requests.exceptions.ConnectionError` raised;
* `requestException msg`: any other `requests.exceptions.RequestException`,
  including the `HTTPError` that `raise_for_status` raises on a 4xx/5xx
  status;
* `success body`: a response that passed `raise_for_status`, with the
  outcome of `response.json()` (`Except.error` carries `response.text`
  when the body is not valid JSON). -/
inductive PostOutcome where
  | timeout : PostOutcome
  | connectionError : PostOutcome
  | requestException (msg : String) : PostOutcome
  | success (body : Except String Json) : PostOutcome

/-- The `send_command_to_agent` function of `controller.py`, as a function
of the HTTP outcome. -/
def send_command_to_agent (agentUrl : String) (out : PostOutcome) : Json :=
  match out with
  | .timeout =>
      .obj [("status", .str "error"), ("message", .str "Request to agent timed out.")]
  | .connectionError =>
      .obj [("status", .str "error"),
            ("message", .str ("Could not connect to agent at " ++ agentUrl ++ ". Is it running?"))]
  | .requestException msg =>
      .obj [("status", .str "error"), ("message", .str ("Request failed: " ++ msg))]
  | .success (.ok parsed) => parsed
  | .success (.error rawText) =>
      .obj [("status", .str "error"), ("message", .str "Invalid JSON from agent."),
            ("raw_response", .str rawText)]

/-! ## Command handlers: `agent/modules/basic_ops.py` -/

/-- `get_server_time`; the wall clock reading (`now.isoformat()`) is an
oracle input. -/
def get_server_time (nowIso : String) : Json :=
  .obj [("status", .str "success"), ("current_time", .str nowIso)]

/-- `greet_user(name="Guest")`. -/
def greet_user (name : String) : Json :=
  .obj [("status", .str "success"), ("message", .str ("Hello, " ++ name ++ "!"))]

/-! ## Command handlers: `agent/modules/productivity_ops.py` -/

/-- A `datetime.datetime` value: days since an arbitrary epoch and the
microsecond of the day.  A well-formed value has `usec < usecPerDay`. -/
structure PyDateTime where
  day : Int
  usec : Nat
deriving Repr, DecidableEq

/-- Microseconds in a day. -/
def usecPerDay : Nat := 86400000000

/-- The `<` comparison of two datetimes. -/
def PyDateTime.ltb (a b : PyDateTime) : Bool :=
  a.day < b.day || (a.day == b.day && decide (a.usec < b.usec))

/-- `now.replace(hour=h, minute=m, second=0, microsecond=0)` for in-range
`h`, `m`: same day, microsecond of day recomputed from the clock time. -/
def PyDateTime.replaceHM (now : PyDateTime) (h m : Nat) : PyDateTime :=
  ⟨now.day, ((h * 60 + m) * 60) * 1000000⟩

/-- `t + datetime.timedelta(days=1)`. -/
def PyDateTime.addDay (t : PyDateTime) : PyDateTime := ⟨t.day + 1, t.usec⟩

/-- `(a - b).total_seconds()` scaled to microseconds. -/
def PyDateTime.subUsec (a b : PyDateTime) : Int :=
  (a.day - b.day) * (usecPerDay : Int) + ((a.usec : Int) - (b.usec : Int))

/-- An injective stand-in for `datetime.isoformat()` (the exact rendering
is irrelevant to the claims). -/
def PyDateTime.iso (t : PyDateTime) : String :=
  toString t.day ++ "T" ++ toString t.usec

/-- One stored reminder: the fields of the dict `set_reminder` puts into
`REMINDERS` (the `threading.Timer` object is represented by the delay it
was created with). -/
structure Reminder where
  time_obj : PyDateTime
  time_str : String
  message : String
  timerDelayUsec : Int
deriving Repr

/-- The module state of `productivity_ops.py`: the `REMINDERS` dict and the
`REMINDER_ID_COUNTER`. -/
structure RemState where
  reminders : List (Int × Reminder)
  counter : Int
deriving Repr

/-- The `time_str` argument of `set_reminder` after the format dispatch of
the function body:
* `hhmm h m`: length 5 with a colon, and `map(int, split)` produced the two
  integers `h`, `m` (the subsequent `now.replace` raises `ValueError` when
  they are out of range, which the model checks explicitly);
* `full t`: length 16 with the `-`, `-`, space, `:` separators, and
  `strptime` parsed it to `t`;
* `badFormat`: neither shape, the `else` arm;
* `valueError`: either shape, but `map(int, ...)`, tuple unpacking, or
  `strptime` raised `ValueError`. -/
inductive TimeInput where
  | hhmm (h m : Nat) : TimeInput
  | full (t : PyDateTime) : TimeInput
  | badFormat : TimeInput
  | valueError : TimeInput

/-- The result of the `except ValueError` arm of `set_reminder`. -/
def invalidComponentsJson : Json :=
  .obj [("status", .str "error"),
        ("message", .str "Invalid time string or components. Ensure HH, MM, YYYY, etc., are correct numbers and format is valid.")]

/-- The scheduling core of `set_reminder` once `reminder_time` is known:
the past-time check, counter increment, timer creation and store insert. -/
def scheduleReminder (now : PyDateTime) (reminderTime : PyDateTime) (message : String)
    (st : RemState) : Json × RemState :=
  if reminderTime.ltb now then
    (.obj [("status", .str "error"),
           ("message", .str ("Cannot set reminder for a past time: " ++ reminderTime.iso))], st)
  else
    let currentId := st.counter + 1
    let delay := reminderTime.subUsec now
    let entry : Reminder := ⟨reminderTime, reminderTime.iso, message, delay⟩
    (.obj [("status", .str "success"), ("reminder_id", .num currentId),
           ("message", .str ("Reminder (ID: " ++ toString currentId ++ ") set for " ++
             reminderTime.iso ++ " with message: " ++ q message ++ "."))],
     ⟨dinsert st.reminders currentId entry, currentId⟩)

/-- The `set_reminder` handler of `productivity_ops.py`. -/
def set_reminder (now : PyDateTime) (timeInput : TimeInput) (message : String)
    (st : RemState) : Json × RemState :=
  match timeInput with
  | .hhmm h m =>
      if h ≤ 23 && m ≤ 59 then
        let reminderTimeToday := now.replaceHM h m
        let reminderTime :=
          if reminderTimeToday.ltb now then reminderTimeToday.addDay else reminderTimeToday
        scheduleReminder now reminderTime message st
      else
        -- out-of-range clock components make `now.replace` raise ValueError
        (invalidComponentsJson, st)
  | .full t => scheduleReminder now t message st
  | .badFormat =>
      (.obj [("status", .str "error"),
             ("message", .str ("Invalid time format. Use " ++ q "HH:MM" ++ " or " ++
               q "YYYY-MM-DD HH:MM" ++ "."))], st)
  | .valueError => (invalidComponentsJson, st)

/-- The `list_reminders` handler. -/
def list_reminders (st : RemState) : Json :=
  if st.reminders.isEmpty then
    .obj [("status", .str "success"), ("reminders", .arr []),
          ("message", .str "No active reminders.")]
  else
    .obj [("status", .str "success"),
          ("reminders", .arr (st.reminders.map (fun p =>
            .obj [("id", .num p.1), ("time", .str p.2.time_str),
                  ("message", .str p.2.message)])))]

/-- The `cancel_reminder` handler: `ridParse` is the outcome of
`int(reminder_id)` (`Except.error` models a raised `ValueError`), and
`cancelRes` the outcome of `timer.cancel()` plus the delete (its error arm
feeds the final `except Exception` of the handler). -/
def cancel_reminder (ridParse : Except Unit Int) (ridText : String)
    (cancelRes : Except String Unit) (st : RemState) : Json × RemState :=
  match ridParse with
  | .error _ =>
      (.obj [("status", .str "error"),
             ("message", .str "Invalid reminder ID format. Reminder ID must be an integer.")], st)
  | .ok rid =>
      if (dlookup st.reminders rid).isSome then
        match cancelRes with
        | .ok _ =>
            (.obj [("status", .str "success"),
                   ("message", .str ("Reminder ID " ++ toString rid ++ " cancelled."))],
             ⟨ddelete st.reminders rid, st.counter⟩)
        | .error e =>
            (.obj [("status", .str "error"),
                   ("message", .str ("Failed to cancel reminder ID " ++ ridText ++ ": " ++ e))], st)
      else
        (.obj [("status", .str "error"),
               ("message", .str ("Reminder ID " ++ toString rid ++ " not found or already past."))], st)

/-- An exception raised by a pyperclip call: the specific
`pyperclip.PyperclipException` or any other exception (the two `except`
arms of the clipboard handlers). -/
inductive ClipErr where
  | pyperclipExc (e : String) : ClipErr
  | otherExc (e : String) : ClipErr

/-- The `get_clipboard_content` handler. -/
def get_clipboard_content (pyperclipAvailable : Bool)
    (pasteRes : Except ClipErr String) : Json :=
  if !pyperclipAvailable then
    .obj [("status", .str "error"),
          ("message", .str "pyperclip library is required for clipboard access but not installed.")]
  else
    match pasteRes with
    | .ok content => .obj [("status", .str "success"), ("clipboard_content", .str content)]
    | .error (.pyperclipExc e) =>
        .obj [("status", .str "error"),
              ("message", .str ("Failed to get clipboard content (pyperclip error): " ++ e ++
                ". Ensure a copy/paste mechanism is available (e.g., xclip or xsel on Linux)."))]
    | .error (.otherExc e) =>
        .obj [("status", .str "error"),
              ("message", .str ("An unexpected error occurred while getting clipboard content: " ++ e))]

/-- The `set_clipboard_content` handler. -/
def set_clipboard_content (_text : String) (pyperclipAvailable : Bool)
    (copyRes : Except ClipErr Unit) : Json :=
  if !pyperclipAvailable then
    .obj [("status", .str "error"),
          ("message", .str "pyperclip library is required for clipboard access but not installed.")]
  else
    match copyRes with
    | .ok _ => .obj [("status", .str "success"), ("message", .str "Clipboard content set.")]
    | .error (.pyperclipExc e) =>
        .obj [("status", .str "error"),
              ("message", .str ("Failed to set clipboard content (pyperclip error): " ++ e ++
                ". Ensure a copy/paste mechanism is available (e.g., xclip or xsel on Linux)."))]
    | .error (.otherExc e) =>
        .obj [("status", .str "error"),
              ("message", .str ("An unexpected error occurred while setting clipboard content: " ++ e))]

/-! ## Command handlers: `agent/modules/file_system_ops.py` -/

/-- The `create_file` handler; `writeRes` is the outcome of opening the
file for writing and writing `content`. -/
def create_file (path : String) (_content : String) (writeRes : Except String Unit) : Json :=
  match writeRes with
  | .ok _ =>
      .obj [("status", .str "success"),
            ("message", .str ("File " ++ q path ++ " created successfully."))]
  | .error e =>
      .obj [("status", .str "error"),
            ("message", .str ("Failed to create file " ++ q path ++ ": " ++ e))]

/-- The `read_file` handler; `pathExists` and `pathIsFile` answer the
`os.path` queries, `readRes` is the outcome of opening and reading. -/
def read_file (path : String) (pathExists pathIsFile : Bool)
    (readRes : Except String String) : Json :=
  if !pathExists then
    .obj [("status", .str "error"), ("message", .str ("File " ++ q path ++ " not found."))]
  else if !pathIsFile then
    .obj [("status", .str "error"), ("message", .str ("Path " ++ q path ++ " is not a file."))]
  else
    match readRes with
    | .ok content => .obj [("status", .str "success"), ("content", .str content)]
    | .error e =>
        .obj [("status", .str "error"),
              ("message", .str ("Failed to read file " ++ q path ++ ": " ++ e))]

/-- The `delete_file_or_directory` handler; the booleans answer the
`os.path` queries, `removeRes` and `rmtreeRes` the outcomes of `os.remove`
and `shutil.rmtree`. -/
def delete_file_or_directory (path : String) (pathExists pathIsFile pathIsLink pathIsDir : Bool)
    (removeRes rmtreeRes : Except String Unit) : Json :=
  if !pathExists then
    .obj [("status", .str "error"),
          ("message", .str ("Path " ++ q path ++ " not found for deletion."))]
  else if pathIsFile || pathIsLink then
    match removeRes with
    | .ok _ =>
        .obj [("status", .str "success"),
              ("message", .str ("File " ++ q path ++ " deleted successfully."))]
    | .error e =>
        .obj [("status", .str "error"),
              ("message", .str ("Failed to delete " ++ q path ++ ": " ++ e))]
  else if pathIsDir then
    match rmtreeRes with
    | .ok _ =>
        .obj [("status", .str "success"),
              ("message", .str ("Directory " ++ q path ++ " and its contents deleted successfully."))]
    | .error e =>
        .obj [("status", .str "error"),
              ("message", .str ("Failed to delete " ++ q path ++ ": " ++ e))]
  else
    .obj [("status", .str "error"),
          ("message", .str ("Path " ++ q path ++ " is not a file or directory."))]

/-- The `move_or_rename` handler; `sourceExists` answers the existence
query, `moveRes` the outcome of `shutil.move`. -/
def move_or_rename (source_path destination_path : String) (sourceExists : Bool)
    (moveRes : Except String Unit) : Json :=
  if !sourceExists then
    .obj [("status", .str "error"),
          ("message", .str ("Source path " ++ q source_path ++ " not found."))]
  else
    match moveRes with
    | .ok _ =>
        .obj [("status", .str "success"),
              ("message", .str ("Moved " ++ q source_path ++ " to " ++ q destination_path ++
                " successfully."))]
    | .error e =>
        .obj [("status", .str "error"),
              ("message", .str ("Failed to move " ++ q source_path ++ " to " ++
                q destination_path ++ ": " ++ e))]

/-- The `search_files` handler; `dirIsDir` answers `os.path.isdir`, and
`scanRes` is the outcome of the directory walk plus name/content matching
(the list of matching paths in traversal order, or the exception caught by
the outer `except`). -/
def search_files (directory : String) (_file_pattern _content_pattern : String)
    (_recursive : Bool) (dirIsDir : Bool) (scanRes : Except String (List String)) : Json :=
  if !dirIsDir then
    .obj [("status", .str "error"),
          ("message", .str ("Directory " ++ q directory ++ " not found."))]
  else
    match scanRes with
    | .ok foundFiles =>
        .obj [("status", .str "success"),
              ("found_files", .arr (foundFiles.map Json.str)),
              ("count", .num foundFiles.length)]
    | .error e =>
        .obj [("status", .str "error"),
              ("message", .str ("Failed to search files in " ++ q directory ++ ": " ++ e))]

/-! ## Command handlers: `agent/modules/web_operations.py` -/

/-- The `open_url_in_browser` handler; `openRes` is the outcome of
`webbrowser.open_new_tab`. -/
def open_url_in_browser (url : String) (openRes : Except String Unit) : Json :=
  let url2 :=
    if !(url.startsWith "http://" || url.startsWith "https://" || url.startsWith "file://") then
      "http://" ++ url
    else url
  match openRes with
  | .ok _ =>
      .obj [("status", .str "success"),
            ("message", .str ("Attempted to open URL: " ++ url2))]
  | .error e =>
      .obj [("status", .str "error"),
            ("message", .str ("Failed to open URL " ++ q url2 ++ ": " ++ e))]

/-- The supported-engines rendering of `f"{list(base_urls.keys())}"`. -/
def supportedEnginesText : String :=
  "[" ++ q "google" ++ ", " ++ q "duckduckgo" ++ ", " ++ q "bing" ++ "]"

/-- The `search_web` handler; `openRes` is the outcome of
`webbrowser.open_new_tab` on the built search URL. -/
def search_web (query engine : String) (openRes : Except String Unit) : Json :=
  if !(["google", "duckduckgo", "bing"].contains engine.toLower) then
    .obj [("status", .str "error"),
          ("message", .str ("Unsupported search engine: " ++ engine ++ ". Supported: " ++
            supportedEnginesText))]
  else
    match openRes with
    | .ok _ =>
        .obj [("status", .str "success"),
              ("message", .str ("Searching for " ++ q query ++ " on " ++ engine ++ "."))]
    | .error e =>
        .obj [("status", .str "error"),
              ("message", .str ("Failed to perform web search for " ++ q query ++ ": " ++ e))]

/-! ## Command handlers: `agent/modules/application_control.py` -/

/-- An exception raised by the `subprocess.Popen` call of
`open_application`: the specifically caught `FileNotFoundError` or any
other exception. -/
inductive PopenErr where
  | fileNotFound : PopenErr
  | otherExc (e : String) : PopenErr

/-- The `open_application` handler.  The command-resolution logic
(`APP_MAP`, `platform.system()`, `os.path` queries) is OS- and
filesystem-dependent; its result, the `final_command_description` string
and the command list rendering used in the generic error message, are
oracle inputs, and `popenRes` is the outcome of `subprocess.Popen`. -/
def open_application (app_name_or_path : String) (finalCommandDescription : String)
    (commandListText : String) (popenRes : Except PopenErr Unit) : Json :=
  match popenRes with
  | .ok _ =>
      .obj [("status", .str "success"),
            ("message", .str ("Attempted to open " ++ q finalCommandDescription ++ "."))]
  | .error .fileNotFound =>
      .obj [("status", .str "error"),
            ("message", .str ("Command or application " ++ q finalCommandDescription ++
              " not found. Ensure it" ++ sglq ++ "s in PATH or provide the full path."))]
  | .error (.otherExc e) =>
      .obj [("status", .str "error"),
            ("message", .str ("Failed to open application " ++ q app_name_or_path ++
              " (command: " ++ commandListText ++ "): " ++ e))]

/-- What the process scan and termination loop of `close_application`
produced: whether any PID matched, how many processes were terminated, and
the `targeted_apps_str` rendering. -/
structure CloseScan where
  anyPidFound : Bool
  terminatedCount : Nat
  targetedAppsText : String

/-- The `close_application` handler; `scanRes` is the outcome of the
`psutil.process_iter` scan plus terminations (its error arm is the outer
`except Exception`). -/
def close_application (app_name : String) (psutilAvailable : Bool)
    (scanRes : Except String CloseScan) : Json :=
  if !psutilAvailable then
    .obj [("status", .str "error"),
          ("message", .str "psutil library is required to close applications by name but not installed.")]
  else
    match scanRes with
    | .error e =>
        .obj [("status", .str "error"),
              ("message", .str ("General error while trying to close application " ++
                q app_name ++ ": " ++ e))]
    | .ok scan =>
        if !scan.anyPidFound then
          .obj [("status", .str "error"),
                ("message", .str ("No running process found clearly matching name " ++
                  q app_name ++ ". Be more specific or check running processes."))]
        else if scan.terminatedCount > 0 then
          .obj [("status", .str "success"),
                ("message", .str ("Attempted to terminate " ++ toString scan.terminatedCount ++
                  " process(es) related to " ++ q scan.targetedAppsText ++ "."))]
        else
          .obj [("status", .str "error"),
                ("message", .str ("Found PIDs for " ++ q app_name ++
                  " but failed to terminate them. Check permissions or if the processes are critical."))]

/-! ## Command handlers: `agent/modules/system_info_control.py` -/

/-- The psutil readings of `get_system_load`; the float-valued fields are
abstract JSON values. -/
structure SysLoad where
  cpuPercent : Json
  memoryPercent : Json
  memoryTotalGb : Json
  memoryUsedGb : Json

/-- The `get_system_load` handler. -/
def get_system_load (psutilAvailable : Bool) (loadRes : Except String SysLoad) : Json :=
  if !psutilAvailable then
    .obj [("status", .str "error"),
          ("message", .str "psutil library is required for system load but not installed.")]
  else
    match loadRes with
    | .ok l =>
        .obj [("status", .str "success"), ("cpu_percent", l.cpuPercent),
              ("memory_percent", l.memoryPercent), ("memory_total_gb", l.memoryTotalGb),
              ("memory_used_gb", l.memoryUsedGb)]
    | .error e =>
        .obj [("status", .str "error"),
              ("message", .str ("Failed to get system load: " ++ e))]

/-- The Windows drive-letter adjustment of `get_disk_space`:
`driveExists` answers the `os.path.exists(os.path.splitdrive(path)[0] +
os.sep)` query. -/
def effectiveDiskPath (system path : String) (driveExists : Bool) : String :=
  if system == "Windows" && path == "/" then "C:\\"
  else if system == "Windows" && !(path.contains (Char.ofNat 58) && driveExists) then
    if path.length == 1 && path.toList.all Char.isAlpha then path.toUpper ++ ":\\"
    else path
  else path

/-- An exception raised by `shutil.disk_usage`: the specifically caught
`FileNotFoundError` or any other exception. -/
inductive DiskErr where
  | fileNotFound : DiskErr
  | otherExc (e : String) : DiskErr

/-- The disk usage figures of `get_disk_space` after the float rounding;
abstract JSON values. -/
structure DiskInfo where
  totalGb : Json
  usedGb : Json
  freeGb : Json
  percentUsed : Json

/-- The `get_disk_space` handler; `system` is `platform.system()` and
`duRes` the outcome of `shutil.disk_usage`. -/
def get_disk_space (path : String) (system : String) (driveExists : Bool)
    (duRes : Except DiskErr DiskInfo) : Json :=
  let effectivePath := effectiveDiskPath system path driveExists
  match duRes with
  | .ok d =>
      .obj [("status", .str "success"), ("path_checked", .str effectivePath),
            ("total_gb", d.totalGb), ("used_gb", d.usedGb), ("free_gb", d.freeGb),
            ("percent_used", d.percentUsed)]
  | .error .fileNotFound =>
      .obj [("status", .str "error"),
            ("message", .str ("Path " ++ q effectivePath ++
              " not found or not accessible for disk usage."))]
  | .error (.otherExc e) =>
      .obj [("status", .str "error"),
            ("message", .str ("Failed to get disk space for " ++ q effectivePath ++ ": " ++ e))]

/-- An exception raised by a volume-setting call, as the two outer `except`
arms of `set_system_volume` distinguish them: a
`subprocess.CalledProcessError` (its message tail, the command/returncode/
output rendering, is an oracle string) or any other exception. -/
inductive VolErr where
  | calledProcess (msgTail : String) : VolErr
  | otherExc (e : String) : VolErr

/-- The outer exception arms of `set_system_volume`. -/
def volumeOuterExcept (level : Int) (system : String) : VolErr → Json
  | .calledProcess msgTail =>
      .obj [("status", .str "error"),
            ("message", .str ("Failed to set volume on " ++ system ++ ". " ++ msgTail))]
  | .otherExc e =>
      .obj [("status", .str "error"),
            ("message", .str ("Failed to set volume to " ++ toString level ++ "% on " ++
              system ++ ": " ++ e))]

/-- The `set_system_volume` handler; `system` is `platform.system()`,
`winInterfaceAvailable` whether `WINDOWS_VOLUME_INTERFACE` was initialised,
`winRes` / `macRes` the outcomes of the Windows scalar call and the macOS
`osascript` run, `pactlRes` the outcome of the `pactl` run (`.error none`
models a `FileNotFoundError` or `CalledProcessError` caught by the inner
`except`, `.error (some e)` any other exception reaching the outer arms),
and `amixerRes` the outcome of the `amixer` fallback. -/
def set_system_volume (level : Int) (system : String) (winInterfaceAvailable : Bool)
    (winRes : Except VolErr Unit) (macRes : Except VolErr Unit)
    (pactlRes : Except (Option VolErr) Unit) (amixerRes : Except String Unit) : Json :=
  if !(0 ≤ level && level ≤ 100) then
    .obj [("status", .str "error"),
          ("message", .str "Volume level must be an integer between 0 and 100.")]
  else if system == "Windows" then
    if winInterfaceAvailable then
      match winRes with
      | .ok _ =>
          .obj [("status", .str "success"),
                ("message", .str ("Windows volume set to " ++ toString level ++ "%."))]
      | .error ve => volumeOuterExcept level system ve
    else
      .obj [("status", .str "error"),
            ("message", .str "Windows volume control (pycaw) not available or not initialized.")]
  else if system == "Darwin" then
    match macRes with
    | .ok _ =>
        .obj [("status", .str "success"),
              ("message", .str ("macOS volume set to " ++ toString level ++ "%."))]
    | .error ve => volumeOuterExcept level system ve
  else if system == "Linux" then
    match pactlRes with
    | .ok _ =>
        .obj [("status", .str "success"),
              ("message", .str ("Linux volume (pactl) set to " ++ toString level ++ "%."))]
    | .error (some ve) => volumeOuterExcept level system ve
    | .error none =>
        match amixerRes with
        | .ok _ =>
            .obj [("status", .str "success"),
                  ("message", .str ("Linux volume (amixer) set to " ++ toString level ++ "%."))]
        | .error linuxE =>
            .obj [("status", .str "error"),
                  ("message", .str ("Linux volume control failed: " ++ linuxE ++
                    ". Ensure amixer or pactl is installed and configured."))]
  else
    .obj [("status", .str "error"),
          ("message", .str ("Volume control not implemented for OS: " ++ system))]

/-- `os.path.splitext` for plain file names (no directory separators): the
extension starts at the last dot, and a name consisting of a single leading
dot group has no extension. -/
def splitExt (s : String) : String × String :=
  let rev := s.toList.reverse
  let extRev := rev.takeWhile (fun c => c != Char.ofNat 46)
  let rest := rev.dropWhile (fun c => c != Char.ofNat 46)
  match rest with
  | [] => (s, "")
  | _ :: baseRev =>
      if baseRev.isEmpty then (s, "")
      else (String.mk baseRev.reverse, String.mk (Char.ofNat 46 :: extRev.reverse))

/-- The `take_screenshot` handler; `abspathOf` models `os.path.abspath`,
and `saveRes` the outcome of `os.makedirs` plus `ImageGrab.grab().save`. -/
def take_screenshot (output_path : String) (pillowAvailable : Bool)
    (abspathOf : String → String) (saveRes : Except String Unit) : Json :=
  if !pillowAvailable then
    .obj [("status", .str "error"),
          ("message", .str "Pillow (PIL) library is required for screenshots but not installed.")]
  else
    let fileName := (splitExt output_path).1
    let fileExt := (splitExt output_path).2
    let outputPath2 :=
      if !([".png", ".jpg", ".jpeg", ".bmp"].contains fileExt.toLower) then fileName ++ ".png"
      else output_path
    let absOutputPath := abspathOf outputPath2
    match saveRes with
    | .ok _ =>
        .obj [("status", .str "success"),
              ("message", .str ("Screenshot saved to " ++ q absOutputPath ++ "."))]
    | .error e =>
        .obj [("status", .str "error"),
              ("message", .str ("Failed to take screenshot: " ++ e))]

/-! ## Auxiliary definitions for the statements -/

/-- First defined option: the value a name resolves to given a later
(overriding) binding source and an earlier one. -/
def ofirst {β : Type} : Option β → Option β → Option β
  | some x, _ => some x
  | none, y => y

/-- Does a handler result dict carry `"status": "success"` or
`"status": "error"`? -/
def okStatusB (j : Json) : Bool :=
  match j.lookup "status" with
  | some (.str s) => s == "success" || s == "error"
  | _ => false

/-- The string at the `"error"` key of a JSON object, when there is one. -/
def errorTextOf (j : Json) : Option String :=
  match j.lookup "error" with
  | some (.str s) => some s
  | _ => none

/-- A sample handler that returns normally, echoing its keyword
arguments. -/
def sampleHandlerOk : Handler :=
  fun kwargs => .ok (.obj [("status", .str "success"), ("echo", .obj kwargs)])

/-- A sample registry with a normally returning handler, one raising
`TypeError` and one raising a generic exception. -/
def sampleRegistry : Registry :=
  [("greet", sampleHandlerOk),
   ("boom_te", fun _ => .raiseTypeError "bad args"),
   ("boom", fun _ => .raiseOther "bang")]

/-- A sample directory listing with import outcomes: a normal module, the
skipped `__init__.py`, a module failing to import, a module overriding a
command name, a non-Python file, and a module without a `COMMANDS` dict. -/
def filesSample : List (String × ImportOutcome Nat) :=
  [("basic_ops.py", .imported (.withCommands [("greet", 1), ("tell_time", 2)])),
   ("__init__.py", .imported (.withCommands [("ignored", 9)])),
   ("broken.py", .importError),
   ("extra_ops.py", .imported (.withCommands [("greet", 3)])),
   ("README.md", .otherError),
   ("empty_ops.py", .imported .noCommands)]

/-! ## Lemmas about the dict model -/

theorem dlookup_dinsert {α β : Type} [DecidableEq α] (d : List (α × β)) (k k' : α) (v : β) :
    dlookup (dinsert d k v) k' = if k = k' then some v else dlookup d k' := by
  induction d with
  | nil => simp [dinsert, dlookup]
  | cons p rest ih =>
    obtain ⟨a, b⟩ := p
    by_cases hak : a = k
    · subst hak
      by_cases hkk : a = k' <;> simp [dinsert, dlookup, hkk]
    · by_cases hak' : a = k'
      · subst hak'
        have hk : ¬ (k = a) := fun h => hak h.symm
        simp [dinsert, dlookup, hak, hk]
      · simp [dinsert, dlookup, hak, hak', ih]

theorem dlookup_append {α β : Type} [DecidableEq α] (xs ys : List (α × β)) (k : α) :
    dlookup (xs ++ ys) k = ofirst (dlookup xs k) (dlookup ys k) := by
  induction xs with
  | nil => simp [dlookup, ofirst]
  | cons p rest ih =>
    obtain ⟨a, b⟩ := p
    by_cases h : a = k <;> simp [dlookup, h, ih, ofirst]

theorem mergeCommands_dlookup {H : Type} (cmds : List (String × H))
    (reg : List (String × H)) (k : String) :
    dlookup (mergeCommands reg cmds) k = ofirst (dlookup cmds.reverse k) (dlookup reg k) := by
  induction cmds generalizing reg with
  | nil => simp [mergeCommands, dlookup, ofirst]
  | cons p rest ih =>
    obtain ⟨n, h⟩ := p
    have hstep : mergeCommands reg ((n, h) :: rest) = mergeCommands (dinsert reg n h) rest := rfl
    rw [hstep, ih, List.reverse_cons, dlookup_append, dlookup_dinsert]
    cases dlookup rest.reverse k <;> by_cases hnk : n = k <;> simp [ofirst, dlookup, hnk]

theorem load_modules_cons {H : Type} (f : String) (o : ImportOutcome H)
    (rest : List (String × ImportOutcome H)) (reg : List (String × H)) :
    load_modules ((f, o) :: rest) reg =
      if shouldLoad f then
        ((load_modules rest (processModule reg o)).1,
         moduleImportName f :: (load_modules rest (processModule reg o)).2)
      else load_modules rest reg := by
  by_cases hf : shouldLoad f <;> simp [load_modules, hf]

theorem allAssignments_cons {H : Type} (f : String) (o : ImportOutcome H)
    (rest : List (String × ImportOutcome H)) :
    allAssignments ((f, o) :: rest) =
      (if shouldLoad f then moduleAssignments o else []) ++ allAssignments rest := rfl

theorem load_modules_dlookup {H : Type} (files : List (String × ImportOutcome H))
    (reg : List (String × H)) (k : String) :
    dlookup (load_modules files reg).1 k =
      ofirst (dlookup (allAssignments files).reverse k) (dlookup reg k) := by
  induction files generalizing reg with
  | nil => rfl
  | cons p rest ih =>
    obtain ⟨f, o⟩ := p
    rw [load_modules_cons]
    by_cases hf : shouldLoad f
    · cases o with
      | imported m =>
        cases m with
        | withCommands cmds =>
          simp only [hf, if_true, allAssignments_cons, ih, processModule,
            moduleAssignments, mergeCommands_dlookup, List.reverse_append, dlookup_append]
          cases dlookup (allAssignments rest).reverse k <;>
            cases dlookup cmds.reverse k <;> simp [ofirst]
        | noCommands =>
          simp only [hf, if_true, allAssignments_cons, ih, processModule,
            moduleAssignments, List.nil_append]
      | importError =>
          simp only [hf, if_true, allAssignments_cons, ih, processModule,
            moduleAssignments, List.nil_append]
      | otherError =>
          simp only [hf, if_true, allAssignments_cons, ih, processModule,
            moduleAssignments, List.nil_append]
    · rw [allAssignments_cons, if_neg hf, if_neg hf, List.nil_append, ih]

theorem load_modules_names {H : Type} (files : List (String × ImportOutcome H))
    (reg : List (String × H)) :
    (load_modules files reg).2 =
      (files.filter (fun p => shouldLoad p.1)).map (fun p => moduleImportName p.1) := by
  induction files generalizing reg with
  | nil => rfl
  | cons p rest ih =>
    obtain ⟨f, o⟩ := p
    rw [load_modules_cons]
    by_cases hf : shouldLoad f <;> simp [hf, List.filter, ih]

theorem load_modules_fst_append {H : Type} (xs ys : List (String × ImportOutcome H))
    (reg : List (String × H)) :
    (load_modules (xs ++ ys) reg).1 = (load_modules ys (load_modules xs reg).1).1 := by
  induction xs generalizing reg with
  | nil => rfl
  | cons p rest ih =>
    obtain ⟨f, o⟩ := p
    rw [List.cons_append, load_modules_cons, load_modules_cons]
    by_cases hf : shouldLoad f <;> simp [hf, ih]

theorem mem_keys_dinsert {α β : Type} [DecidableEq α] (d : List (α × β)) (k x : α) (v : β) :
    x ∈ (dinsert d k v).map Prod.fst ↔ x ∈ d.map Prod.fst ∨ x = k := by
  induction d with
  | nil => simp [dinsert]
  | cons p rest ih =>
    obtain ⟨a, b⟩ := p
    by_cases hak : a = k
    · subst hak
      by_cases hx : x = a <;> simp [dinsert, hx]
    · simp only [dinsert, hak, if_false, List.map_cons, List.mem_cons, ih]
      tauto

theorem nodup_keys_dinsert {α β : Type} [DecidableEq α] (d : List (α × β)) (k : α) (v : β)
    (h : (d.map Prod.fst).Nodup) : ((dinsert d k v).map Prod.fst).Nodup := by
  induction d with
  | nil => simp [dinsert]
  | cons p rest ih =>
    obtain ⟨a, b⟩ := p
    simp only [List.map_cons, List.nodup_cons] at h
    by_cases hak : a = k
    · subst hak
      simpa [dinsert, List.nodup_cons] using h
    · simp only [dinsert, hak, if_false, List.map_cons, List.nodup_cons]
      refine ⟨?_, ih h.2⟩
      rw [mem_keys_dinsert]
      rintro (hmem | rfl)
      · exact h.1 hmem
      · exact hak rfl

theorem nodup_keys_mergeCommands {H : Type} (cmds : List (String × H))
    (reg : List (String × H)) (h : (reg.map Prod.fst).Nodup) :
    ((mergeCommands reg cmds).map Prod.fst).Nodup := by
  induction cmds generalizing reg with
  | nil => exact h
  | cons p rest ih =>
    obtain ⟨n, hv⟩ := p
    exact ih (dinsert reg n hv) (nodup_keys_dinsert reg n hv h)

theorem nodup_keys_load_modules {H : Type} (files : List (String × ImportOutcome H))
    (reg : List (String × H)) (h : (reg.map Prod.fst).Nodup) :
    ((load_modules files reg).1.map Prod.fst).Nodup := by
  induction files generalizing reg with
  | nil => exact h
  | cons p rest ih =>
    obtain ⟨f, o⟩ := p
    rw [load_modules_cons]
    by_cases hf : shouldLoad f
    · simp only [hf, if_true]
      cases o with
      | imported m =>
        cases m with
        | withCommands cmds => exact ih _ (nodup_keys_mergeCommands cmds reg h)
        | noCommands => exact ih _ h
      | importError => exact ih _ h
      | otherError => exact ih _ h
    · simp only [hf, if_false]
      exact ih _ h

/-! ## Claim theorems -/

/-- C1: for every POST `/execute` request whose JSON body contains a
`command_name` that is a key of `COMMAND_REGISTRY`, the execute endpoint
calls exactly the handler registered under that name, passing the `params`
object of the body (or the empty dict when `params` is absent) as keyword
arguments, and when the handler returns normally the endpoint returns the
result of the handler as the JSON response body with HTTP status 200. -/
theorem C1_execute_dispatches_registered_handler
    (reg : Registry) (data : List (String × Json)) (name : String) (h : Handler)
    (kwargs : Kwargs) (v : Json)
    (hname : dlookup data "command_name" = some (.str name))
    (hreg : dlookup reg name = some h)
    (hparams : dlookup data "params" = some (.obj kwargs) ∨
               (dlookup data "params" = none ∧ kwargs = []))
    (hok : h kwargs = .ok v) :
    execute reg (.jsonBody data) = ⟨reg, ⟨200, v⟩, some (name, kwargs)⟩ := by
  rcases hparams with hp | ⟨hp, hkw⟩
  · simp [execute, hname, hp, registryLookup, hreg, hok]
  · subst hkw
    simp [execute, hname, hp, registryLookup, hreg, hok]

/-- Witness for C1 at a concrete registry, body and handler. -/
theorem C1_witness :
    execute sampleRegistry
        (.jsonBody [("command_name", .str "greet"), ("params", .obj [("name", .str "Ada")])]) =
      ⟨sampleRegistry,
       ⟨200, .obj [("status", .str "success"), ("echo", .obj [("name", .str "Ada")])]⟩,
       some ("greet", [("name", .str "Ada")])⟩ :=
  C1_execute_dispatches_registered_handler sampleRegistry _ "greet" sampleHandlerOk
    [("name", .str "Ada")] _ rfl rfl (Or.inl rfl) rfl

/-- C2: for every registered command whose handler raises when called by
the execute endpoint, the endpoint does not propagate the exception: it
returns a JSON object with `"status": "error"` and a message naming the
command, with HTTP status 400 when the exception is a `TypeError` and 500
for any other exception, and the command registry is unchanged by the
failed call. -/
theorem C2_handler_exception_translation
    (reg : Registry) (data : List (String × Json)) (name : String) (h : Handler)
    (kwargs : Kwargs)
    (hname : dlookup data "command_name" = some (.str name))
    (hreg : dlookup reg name = some h)
    (hparams : dlookup data "params" = some (.obj kwargs) ∨
               (dlookup data "params" = none ∧ kwargs = [])) :
    (∀ e, h kwargs = .raiseTypeError e →
        execute reg (.jsonBody data) =
          ⟨reg, ⟨400, .obj [("status", .str "error"),
            ("message", .str ("Parameter mismatch for command " ++ q name ++ ": " ++ e))]⟩,
           some (name, kwargs)⟩) ∧
    (∀ e, h kwargs = .raiseOther e →
        execute reg (.jsonBody data) =
          ⟨reg, ⟨500, .obj [("status", .str "error"),
            ("message", .str ("Error executing command " ++ q name ++ ": " ++ e))]⟩,
           some (name, kwargs)⟩) ∧
    (∀ (r : Registry) (req : Request), (execute r req).reg = r) := by
  refine ⟨?_, ?_, ?_⟩
  · intro e he
    rcases hparams with hp | ⟨hp, hkw⟩
    · simp [execute, hname, hp, registryLookup, hreg, he]
    · subst hkw
      simp [execute, hname, hp, registryLookup, hreg, he]
  · intro e he
    rcases hparams with hp | ⟨hp, hkw⟩
    · simp [execute, hname, hp, registryLookup, hreg, he]
    · subst hkw
      simp [execute, hname, hp, registryLookup, hreg, he]
  · intro r req
    cases req with
    | notJson => rfl
    | invalidJson d => rfl
    | jsonBody data2 =>
      simp only [execute]
      rcases dlookup data2 "command_name" with _ | cn
      · rfl
      · rcases hrl : registryLookup r cn with _ | h2
        · simp [hrl]
        · rcases (dlookup data2 "params").getD (.obj []) with _ | _ | _ | _ | _ | kw <;>
            simp [hrl] <;> rcases h2 kw with _ | _ | _ <;> rfl

/-- Witness for C2: the TypeError-raising and generically raising sample
handlers, called with no `params` key in the body. -/
theorem C2_witness :
    execute sampleRegistry (.jsonBody [("command_name", .str "boom_te")]) =
      ⟨sampleRegistry, ⟨400, .obj [("status", .str "error"),
        ("message", .str ("Parameter mismatch for command " ++ q "boom_te" ++ ": " ++ "bad args"))]⟩,
       some ("boom_te", [])⟩ ∧
    execute sampleRegistry (.jsonBody [("command_name", .str "boom")]) =
      ⟨sampleRegistry, ⟨500, .obj [("status", .str "error"),
        ("message", .str ("Error executing command " ++ q "boom" ++ ": " ++ "bang"))]⟩,
       some ("boom", [])⟩ :=
  ⟨(C2_handler_exception_translation sampleRegistry [("command_name", .str "boom_te")]
      "boom_te" (fun _ => .raiseTypeError "bad args") []
      rfl rfl (Or.inr ⟨rfl, rfl⟩)).1 "bad args" rfl,
   (C2_handler_exception_translation sampleRegistry [("command_name", .str "boom")]
      "boom" (fun _ => .raiseOther "bang") []
      rfl rfl (Or.inr ⟨rfl, rfl⟩)).2.1 "bang" rfl⟩

/-- C9 counterexample: a request whose body is not JSON but whose content
type declares JSON (`invalidJson`) is rejected with HTTP 400 and the error
text `Invalid JSON format`, not `Request must be JSON` as the claim states
for every request whose body is not JSON. -/
theorem C9_counterexample :
    (execute sampleRegistry (.invalidJson "boom")).resp.code = 400 ∧
    errorTextOf (execute sampleRegistry (.invalidJson "boom")).resp.body =
      some "Invalid JSON format" ∧
    errorTextOf (execute sampleRegistry (.invalidJson "boom")).resp.body ≠
      some "Request must be JSON" := by
  refine ⟨rfl, rfl, ?_⟩
  intro hcontra
  simp [execute, errorTextOf, Json.lookup, dlookup] at hcontra

/-- C9 (amended): a request not declaring a JSON content type is rejected
with 400 and error `Request must be JSON`; a request declaring JSON whose
body fails to parse is rejected with 400 and error `Invalid JSON format`;
a JSON object body lacking `command_name` is rejected with 400; a
`command_name` not present in `COMMAND_REGISTRY` is rejected with 404 and
error `unfound function`; in every such case no handler is invoked and the
registry is unchanged. -/
theorem C9_malformed_request_rejection :
    (∀ reg, execute reg .notJson =
        ⟨reg, ⟨400, .obj [("error", .str "Request must be JSON")]⟩, none⟩) ∧
    (∀ reg d, execute reg (.invalidJson d) =
        ⟨reg, ⟨400, .obj [("error", .str "Invalid JSON format"), ("details", .str d)]⟩, none⟩) ∧
    (∀ reg data, dlookup data "command_name" = none →
        execute reg (.jsonBody data) =
          ⟨reg, ⟨400, .obj [("error", .str ("Missing " ++ q "command_name" ++ " in JSON payload"))]⟩,
           none⟩) ∧
    (∀ reg data cn, dlookup data "command_name" = some cn →
        registryLookup reg cn = none →
        execute reg (.jsonBody data) =
          ⟨reg, ⟨404, .obj [("error", .str "unfound function")]⟩, none⟩) := by
  refine ⟨fun reg => rfl, fun reg d => rfl, ?_, ?_⟩
  · intro reg data hnone
    simp [execute, hnone]
  · intro reg data cn hcn hmiss
    simp [execute, hcn, hmiss]

/-- Witness for C9: concrete rejected requests. -/
theorem C9_witness :
    execute sampleRegistry (.jsonBody [("x", .num 1)]) =
      ⟨sampleRegistry,
       ⟨400, .obj [("error", .str ("Missing " ++ q "command_name" ++ " in JSON payload"))]⟩,
       none⟩ ∧
    execute sampleRegistry (.jsonBody [("command_name", .str "nope")]) =
      ⟨sampleRegistry, ⟨404, .obj [("error", .str "unfound function")]⟩, none⟩ :=
  ⟨C9_malformed_request_rejection.2.2.1 sampleRegistry [("x", .num 1)] rfl,
   C9_malformed_request_rejection.2.2.2 sampleRegistry [("command_name", .str "nope")]
     (.str "nope") rfl rfl⟩

/-- C3: for every command in `COMMAND_REGISTRY` (whatever the handler
docstrings), the `GET /commands_schema` response contains exactly one entry
bearing the name of that command, whose `params_schema_for_prompt` lists
every parameter of the handler signature, where `optional` is true exactly
when the parameter has a default, `default` is present exactly when the
parameter has a default and equals it, and `type` is the annotated type
name with fallback `"string"` when unannotated. -/
theorem C3_commands_schema_from_introspection (docs : Nat → Option String) :
    checkSchemaAgainst (get_commands_schema (realSigs docs)) realParamSigs = true := rfl

/-- C4: `load_modules` merges the exported `COMMANDS` dict of every
discovered module into the single `COMMAND_REGISTRY`: a name resolves to
the handler of its last assignment (so the handler from the later-processed
module replaces an earlier one), falling back to the preexisting registry when no
considered module exports the name; a module lacking a dict-valued
`COMMANDS` contributes nothing; and the registry keys stay unique, so each
name maps to exactly one handler. -/
theorem C4_registry_merge_semantics :
    (∀ (H : Type) (files : List (String × ImportOutcome H)) (reg : List (String × H))
        (n : String),
        dlookup (load_modules files reg).1 n =
          ofirst (dlookup (allAssignments files).reverse n) (dlookup reg n)) ∧
    (∀ (H : Type) (f : String) (rest : List (String × ImportOutcome H))
        (reg : List (String × H)),
        (load_modules ((f, .imported .noCommands) :: rest) reg).1 =
          (load_modules rest reg).1) ∧
    (∀ (H : Type) (files : List (String × ImportOutcome H)) (reg : List (String × H)),
        (reg.map Prod.fst).Nodup → ((load_modules files reg).1.map Prod.fst).Nodup) := by
  refine ⟨fun H files reg n => load_modules_dlookup files reg n, ?_, ?_⟩
  · intro H f rest reg
    rw [load_modules_cons]
    by_cases hf : shouldLoad f <;> simp [hf, processModule]
  · intro H files reg h
    exact nodup_keys_load_modules files reg h

/-- Witness for C4 on a concrete directory listing featuring a skipped
file, a failed import, an override and a module without a `COMMANDS`
dict. -/
theorem C4_witness :
    dlookup (load_modules filesSample ([] : List (String × Nat))).1 "greet" =
      ofirst (dlookup (allAssignments filesSample).reverse "greet")
        (dlookup ([] : List (String × Nat)) "greet") ∧
    ((load_modules filesSample ([] : List (String × Nat))).1.map Prod.fst).Nodup :=
  ⟨C4_registry_merge_semantics.1 Nat filesSample [] "greet",
   C4_registry_merge_semantics.2.2 Nat filesSample [] (by decide)⟩

/-- C5: module discovery considers exactly the files whose names end in
`.py` other than `__init__.py` (the attempted module import names are the
filtered listing), and a module failing with `ImportError` or any other
exception contributes nothing: the registry is the one obtained with the
failing file absent, so commands registered from other modules are intact
and later modules still load. -/
theorem C5_discovery_filter_and_isolation :
    (∀ (H : Type) (files : List (String × ImportOutcome H)) (reg : List (String × H)),
        (load_modules files reg).2 =
          (files.filter (fun p => shouldLoad p.1)).map (fun p => moduleImportName p.1)) ∧
    (∀ (H : Type) (pre post : List (String × ImportOutcome H)) (f : String)
        (reg : List (String × H)),
        (load_modules (pre ++ (f, ImportOutcome.importError) :: post) reg).1 =
          (load_modules (pre ++ post) reg).1) ∧
    (∀ (H : Type) (pre post : List (String × ImportOutcome H)) (f : String)
        (reg : List (String × H)),
        (load_modules (pre ++ (f, ImportOutcome.otherError) :: post) reg).1 =
          (load_modules (pre ++ post) reg).1) := by
  have hstep : ∀ (H : Type) (f : String) (o : ImportOutcome H)
      (post : List (String × ImportOutcome H)) (reg : List (String × H)),
      processModule reg o = reg →
      (load_modules ((f, o) :: post) reg).1 = (load_modules post reg).1 := by
    intro H f o post reg hid
    rw [load_modules_cons]
    by_cases hf : shouldLoad f <;> simp [hf, hid]
  refine ⟨fun H files reg => load_modules_names files reg, ?_, ?_⟩
  · intro H pre post f reg
    rw [load_modules_fst_append, load_modules_fst_append,
      hstep H f ImportOutcome.importError post (load_modules pre reg).1 rfl]
  · intro H pre post f reg
    rw [load_modules_fst_append, load_modules_fst_append,
      hstep H f ImportOutcome.otherError post (load_modules pre reg).1 rfl]

/-- C6 counterexample: the claim that the agent serves exactly the two
endpoints `/commands_schema` and `/execute` with no other route is false:
`agent_server.py` also registers the root route `/` (bound to
`hello_world`). -/
theorem C6_counterexample :
    appRoutes.map Route.path ≠ ["/commands_schema", "/execute"] ∧
    (⟨"/", ["GET"]⟩ : Route) ∈ appRoutes ∧
    "/" ∉ ["/commands_schema", "/execute"] := by
  refine ⟨?_, by decide, by decide⟩
  intro hcontra
  simp [appRoutes] at hcontra

/-- C6 (amended): the agent process registers exactly three routes: the
root `/` (GET, hello world), schema introspection `/commands_schema` (GET)
and command execution `/execute` (POST); no other route. -/
theorem C6_registered_routes :
    appRoutes.map Route.path = ["/", "/commands_schema", "/execute"] ∧
    (⟨"/", ["GET"]⟩ : Route) ∈ appRoutes ∧
    (⟨"/commands_schema", ["GET"]⟩ : Route) ∈ appRoutes ∧
    (⟨"/execute", ["POST"]⟩ : Route) ∈ appRoutes ∧
    appRoutes.length = 3 := by
  refine ⟨rfl, by decide, by decide, by decide, rfl⟩

/-- C7: `send_command_to_agent` forwards the controller command JSON to
the agent `/execute` endpoint as an HTTP POST with JSON body and returns
the parsed JSON response of the agent; when the request times out, the
connection fails, or the request otherwise fails, it returns a dict with
`"status": "error"` and a descriptive message instead of raising. -/
theorem C7_send_command_to_agent_behaviour (agentUrl : String) (commandJson : Json) :
    sentRequest agentUrl commandJson = ⟨agentUrl ++ "/execute", "POST", commandJson⟩ ∧
    (∀ parsed, send_command_to_agent agentUrl (.success (.ok parsed)) = parsed) ∧
    send_command_to_agent agentUrl .timeout =
      .obj [("status", .str "error"), ("message", .str "Request to agent timed out.")] ∧
    send_command_to_agent agentUrl .connectionError =
      .obj [("status", .str "error"),
            ("message", .str ("Could not connect to agent at " ++ agentUrl ++ ". Is it running?"))] ∧
    (∀ msg, send_command_to_agent agentUrl (.requestException msg) =
      .obj [("status", .str "error"), ("message", .str ("Request failed: " ++ msg))]) :=
  ⟨rfl, fun _ => rfl, rfl, rfl, fun _ => rfl⟩

theorem okStatusB_success (rest : List (String × Json)) :
    okStatusB (.obj (("status", .str "success") :: rest)) = true := rfl

theorem okStatusB_error (rest : List (String × Json)) :
    okStatusB (.obj (("status", .str "error") :: rest)) = true := rfl

theorem volumeOuterExcept_status (level : Int) (system : String) (ve : VolErr) :
    okStatusB (volumeOuterExcept level system ve) = true := by
  cases ve <;> rfl

theorem scheduleReminder_status (now reminderTime : PyDateTime) (message : String)
    (st : RemState) : okStatusB (scheduleReminder now reminderTime message st).1 = true := by
  unfold scheduleReminder
  split <;> rfl

/-- C8: every command handler registered in the `COMMANDS` table of any
module,
for every input (arguments and effect outcomes) on which it returns,
returns a dict whose `"status"` is `"success"` or `"error"` — so every 200
response from `/execute` carries this uniform result shape. -/
theorem C8_handlers_return_status :
    (∀ nowIso, okStatusB (get_server_time nowIso) = true) ∧
    (∀ name, okStatusB (greet_user name) = true) ∧
    (∀ path content writeRes, okStatusB (create_file path content writeRes) = true) ∧
    (∀ path pe pif readRes, okStatusB (read_file path pe pif readRes) = true) ∧
    (∀ path pe pif pil pid r1 r2,
      okStatusB (delete_file_or_directory path pe pif pil pid r1 r2) = true) ∧
    (∀ src dst se mr, okStatusB (move_or_rename src dst se mr) = true) ∧
    (∀ dir fp cp rec isd scan, okStatusB (search_files dir fp cp rec isd scan) = true) ∧
    (∀ now ti msg st, okStatusB (set_reminder now ti msg st).1 = true) ∧
    (∀ st, okStatusB (list_reminders st) = true) ∧
    (∀ rp rt cr st, okStatusB (cancel_reminder rp rt cr st).1 = true) ∧
    (∀ avail pasteRes, okStatusB (get_clipboard_content avail pasteRes) = true) ∧
    (∀ text avail copyRes, okStatusB (set_clipboard_content text avail copyRes) = true) ∧
    (∀ url openRes, okStatusB (open_url_in_browser url openRes) = true) ∧
    (∀ query engine openRes, okStatusB (search_web query engine openRes) = true) ∧
    (∀ app fcd clt popenRes, okStatusB (open_application app fcd clt popenRes) = true) ∧
    (∀ app avail scanRes, okStatusB (close_application app avail scanRes) = true) ∧
    (∀ avail loadRes, okStatusB (get_system_load avail loadRes) = true) ∧
    (∀ path system de duRes, okStatusB (get_disk_space path system de duRes) = true) ∧
    (∀ level system wa wr mr pr ar,
      okStatusB (set_system_volume level system wa wr mr pr ar) = true) ∧
    (∀ op pa af saveRes, okStatusB (take_screenshot op pa af saveRes) = true) := by
  refine ⟨fun _ => rfl, fun _ => rfl, ?_, ?_, ?_, ?_, ?_, ?_, ?_, ?_, ?_, ?_, ?_, ?_,
    ?_, ?_, ?_, ?_, ?_, ?_⟩
  · intro path content writeRes
    cases writeRes <;> rfl
  · intro path pe pif readRes
    cases pe <;> cases pif <;> cases readRes <;> rfl
  · intro path pe pif pil pid r1 r2
    cases pe <;> cases pif <;> cases pil <;> cases pid <;> cases r1 <;> cases r2 <;> rfl
  · intro src dst se mr
    cases se <;> cases mr <;> rfl
  · intro dir fp cp rec isd scan
    cases isd <;> cases scan <;> rfl
  · intro now ti msg st
    cases ti with
    | hhmm h m =>
      simp only [set_reminder]
      split
      · exact scheduleReminder_status _ _ _ _
      · rfl
    | full t => exact scheduleReminder_status _ _ _ _
    | badFormat => rfl
    | valueError => rfl
  · intro st
    unfold list_reminders
    split <;> rfl
  · intro rp rt cr st
    cases rp with
    | error e => rfl
    | ok rid =>
      simp only [cancel_reminder]
      split
      · cases cr <;> rfl
      · rfl
  · intro avail pasteRes
    cases avail
    · rfl
    · cases pasteRes with
      | ok c => rfl
      | error err => cases err <;> rfl
  · intro text avail copyRes
    cases avail
    · rfl
    · cases copyRes with
      | ok u => rfl
      | error err => cases err <;> rfl
  · intro url openRes
    cases openRes <;> rfl
  · intro query engine openRes
    unfold search_web
    split
    · rfl
    · cases openRes <;> rfl
  · intro app fcd clt popenRes
    cases popenRes with
    | ok u => rfl
    | error err => cases err <;> rfl
  · intro app avail scanRes
    cases avail
    · rfl
    · cases scanRes with
      | error e => rfl
      | ok scan =>
        unfold close_application
        repeat' split
        all_goals rfl
  · intro avail loadRes
    cases avail
    · rfl
    · cases loadRes <;> rfl
  · intro path system de duRes
    cases duRes with
    | ok d => rfl
    | error err => cases err <;> rfl
  · intro level system wa wr mr pr ar
    unfold set_system_volume
    split
    · rfl
    · split
      · cases wa
        · rfl
        · cases wr with
          | ok u => rfl
          | error ve => exact volumeOuterExcept_status _ _ _
      · split
        · cases mr with
          | ok u => rfl
          | error ve => exact volumeOuterExcept_status _ _ _
        · split
          · cases pr with
            | ok u => rfl
            | error o =>
              cases o with
              | none => cases ar <;> rfl
              | some ve => exact volumeOuterExcept_status _ _ _
          · rfl
  · intro op pa af saveRes
    cases pa
    · rfl
    · cases saveRes <;> rfl

theorem ltb_addDay_of_eq_day (a b : PyDateTime) (hd : a.day = b.day) :
    (a.addDay).ltb b = false := by
  simp only [PyDateTime.ltb, PyDateTime.addDay, hd, Bool.or_eq_false_iff,
    Bool.and_eq_false_iff, decide_eq_false_iff_not, beq_eq_false_iff_ne, ne_eq]
  omega

/-- C10: a call of `set_reminder` with an `HH:MM` time whose clock time
today is strictly earlier than the current time schedules the reminder for
that clock time on the following day (stored under the next counter value,
with the timer delay reaching into tomorrow); a call with a
`YYYY-MM-DD HH:MM` time denoting a moment earlier than the current time
returns a `"status": "error"` result and leaves the `REMINDERS` store and
the ID counter unchanged. -/
theorem C10_set_reminder_past_time_handling (now : PyDateTime) (st : RemState) (msg : String) :
    (∀ h m, h ≤ 23 → m ≤ 59 → (now.replaceHM h m).ltb now = true →
        set_reminder now (.hhmm h m) msg st =
          (.obj [("status", .str "success"), ("reminder_id", .num (st.counter + 1)),
                 ("message", .str ("Reminder (ID: " ++ toString (st.counter + 1) ++ ") set for " ++
                   ((now.replaceHM h m).addDay).iso ++ " with message: " ++ q msg ++ "."))],
           ⟨dinsert st.reminders (st.counter + 1)
              ⟨(now.replaceHM h m).addDay, ((now.replaceHM h m).addDay).iso, msg,
               ((now.replaceHM h m).addDay).subUsec now⟩,
            st.counter + 1⟩)) ∧
    (∀ t, t.ltb now = true →
        set_reminder now (.full t) msg st =
          (.obj [("status", .str "error"),
                 ("message", .str ("Cannot set reminder for a past time: " ++ t.iso))], st)) := by
  constructor
  · intro h m h23 m59 hlt
    have hcond : (decide (h ≤ 23) && decide (m ≤ 59)) = true := by
      simp [h23, m59]
    have hday : (now.replaceHM h m).day = now.day := rfl
    simp only [set_reminder, hcond, if_true, hlt,
      scheduleReminder, ltb_addDay_of_eq_day (now.replaceHM h m) now hday,
      Bool.false_eq_true, if_false]
  · intro t hlt
    simp only [set_reminder, scheduleReminder, hlt, if_true]

/-- Witness for C10: at 01:00 (plus an hour of microseconds) on day 100,
an `00:30` reminder lands on day 101 at 00:30, and a full timestamp on
day 99 is rejected with the state unchanged. -/
theorem C10_witness :
    set_reminder ⟨100, 3600000000⟩ (.hhmm 0 30) "tea" ⟨[], 0⟩ =
      (.obj [("status", .str "success"), ("reminder_id", .num ((0 : Int) + 1)),
             ("message", .str ("Reminder (ID: " ++ toString ((0 : Int) + 1) ++ ") set for " ++
               (((⟨100, 3600000000⟩ : PyDateTime).replaceHM 0 30).addDay).iso ++
               " with message: " ++ q "tea" ++ "."))],
       ⟨dinsert [] ((0 : Int) + 1)
          ⟨((⟨100, 3600000000⟩ : PyDateTime).replaceHM 0 30).addDay,
           (((⟨100, 3600000000⟩ : PyDateTime).replaceHM 0 30).addDay).iso, "tea",
           (((⟨100, 3600000000⟩ : PyDateTime).replaceHM 0 30).addDay).subUsec
             ⟨100, 3600000000⟩⟩,
        (0 : Int) + 1⟩) ∧
    set_reminder ⟨100, 3600000000⟩ (.full ⟨99, 0⟩) "tea" ⟨[], 0⟩ =
      (.obj [("status", .str "error"),
             ("message", .str ("Cannot set reminder for a past time: " ++
               (⟨99, 0⟩ : PyDateTime).iso))], ⟨[], 0⟩) :=
  ⟨(C10_set_reminder_past_time_handling ⟨100, 3600000000⟩ ⟨[], 0⟩ "tea").1 0 30
     (by decide) (by decide) (by decide),
   (C10_set_reminder_past_time_handling ⟨100, 3600000000⟩ ⟨[], 0⟩ "tea").2 ⟨99, 0⟩
     (by decide)⟩
